import Mathlib

/-!
Verification of the nutrient-predictor backend:
a shallow embedding of the feature mapper (`create_feature_vector`),
the prediction service (`predict`), the recommendation engine
(`generate_recommendations`) and the response assembly
(`overall_health_score`), with theorems checking the specified
properties against these definitions.

Probabilities, weights, heights and SHAP impacts are modelled as exact
rationals (`ℚ`); the trained ML models, calibrated variants and SHAP
explainers are external artifacts, modelled as an opaque-per-request
environment (`ModelEnv`) giving each nutrient key its calibrated
probability, uncalibrated probability and SHAP attribution row.
-/

/-! ### Schemas (src/app/schemas/prediction.py, user_profile.py) -/

inductive RiskCategory where
  | Low
  | Moderate
  | High
deriving DecidableEq

inductive Priority where
  | Low
  | Medium
  | High
deriving DecidableEq

inductive RecommendationCategory where
  | Medical
  | Dietary
  | Lifestyle
deriving DecidableEq

structure UserProfile where
  age : ℤ
  gender : String
  race : String
  weight : ℚ
  height : ℚ
  education : String
  marital_status : String
  country_of_birth : String
deriving DecidableEq

structure NutrientPrediction where
  nutrient : String
  risk_score : ℚ
  risk_category : RiskCategory
  confidence : ℚ
  confidence_lower : ℚ
  confidence_upper : ℚ
  note : String
deriving DecidableEq

structure FeatureContribution where
  feature : String
  feature_name : String
  value : ℚ
  impact : ℚ
deriving DecidableEq

structure Recommendation where
  category : RecommendationCategory
  priority : Priority
  recommendation : String
  rationale : String
deriving DecidableEq

/-! ### String helpers

Python's substring test `pat in s` is modelled on the character lists of
the two strings. -/

/-- Does the first character list start the second one? -/
def strStarts : List Char → List Char → Bool
  | [], _ => true
  | _ :: _, [] => false
  | a :: as, b :: bs => a == b && strStarts as bs

/-- Does `pat` occur somewhere in the character list? -/
def strContainsAux (pat : List Char) : List Char → Bool
  | [] => strStarts pat []
  | c :: rest => strStarts pat (c :: rest) || strContainsAux pat rest

/-- Python's `pat in s` substring test. -/
def strContains (s pat : String) : Bool :=
  strContainsAux pat.data s.data

/-- Models the Python fixed-point f-string formatting (`:.2f`, `:.1f`) of a
score, as exact rational rounding to `prec` decimal places.  Only the
`rationale` strings of recommendations use it; no verified property depends
on its exact rounding mode. -/
def formatFixed (prec : ℕ) (q : ℚ) : String :=
  let scale : ℚ := (10 : ℚ) ^ prec
  let n : ℤ := ⌊q * scale + 1/2⌋
  let ip : ℤ := n / (10 : ℤ) ^ prec
  let fp : ℕ := (n % (10 : ℤ) ^ prec).toNat
  let fpStr := toString fp
  let pad := String.mk (List.replicate (prec - fpStr.length) '0')
  toString ip ++ "." ++ pad ++ fpStr

/-- String shown for a risk category when interpolated into rationale text. -/
def riskCategoryStr : RiskCategory → String
  | RiskCategory.Low => "Low"
  | RiskCategory.Moderate => "Moderate"
  | RiskCategory.High => "High"

/-! ### Feature mapper (src/app/models/predictor.py, `create_feature_vector`)

The Python code iterates over `self.feature_names`, filling a dict
`feature_dict` one feature at a time; the dict built so far is visible to
later iterations (used by the `RIDRETH1` branch via
`feature_dict.get('RIDRETH3', 3)`).  The dict is modelled as a function
`String → Option ℚ` updated entry by entry. -/

def race_mapping : List (String × ℚ) :=
  [("Mexican American", 1), ("Other Hispanic", 2), ("Non-Hispanic White", 3),
   ("Non-Hispanic Black", 4), ("Other Race", 6)]

def education_mapping : List (String × ℚ) :=
  [("Less than 9th grade", 1), ("9-11th grade", 2), ("High school graduate", 3),
   ("Some college", 4), ("College graduate or above", 5)]

def marital_mapping : List (String × ℚ) :=
  [("Married", 1), ("Widowed", 2), ("Divorced", 3), ("Separated", 4),
   ("Never married", 5), ("Living with partner", 6)]

/-- The value assigned to feature `feat`, given the profile and the dict
built by the earlier loop iterations (one `elif` branch per feature). -/
def mapFeature (profile : UserProfile) (dict : String → Option ℚ) (feat : String) : ℚ :=
  if feat = "RIDAGEYR" then (profile.age : ℚ)
  else if feat = "RIAGENDR" then (if profile.gender = "Male" then 1 else 2)
  else if feat = "RIDRETH3" then (race_mapping.lookup profile.race).getD 6
  else if feat = "BMXWT" then profile.weight
  else if feat = "BMXHT" then profile.height
  else if feat = "BMXBMI" then profile.weight / ((profile.height / 100) ^ 2)
  else if feat = "DMDBORN4" then (if profile.country_of_birth = "US" then 1 else 2)
  else if feat = "DMDEDUC2" then (education_mapping.lookup profile.education).getD 3
  else if feat = "DMDMARTL" then (marital_mapping.lookup profile.marital_status).getD 5
  else if feat = "SDDSRVYR" then 8
  else if feat = "RIDSTATR" then 2
  else if feat = "RIDRETH1" then (dict "RIDRETH3").getD 3
  else if feat = "RIDEXMON" then 6
  else if feat = "DMQMILIZ" ∨ feat = "DMDCITZN" then 1
  else if feat = "SIALANG" ∨ feat = "FIALANG" then 1
  else if feat = "SIAPROXY" ∨ feat = "SIAINTRP" ∨ feat = "FIAPROXY" then 2
  else 0

/-- The loop of `create_feature_vector`: fold over the feature names,
updating the dict. -/
def buildFeatureDict (profile : UserProfile) :
    List String → (String → Option ℚ) → (String → Option ℚ)
  | [], dict => dict
  | feat :: rest, dict =>
      buildFeatureDict profile rest
        (fun k => if k = feat then some (mapFeature profile dict feat) else dict k)

/-- `create_feature_vector`: the single-row DataFrame, as the list of
(column name, value) pairs in `feature_names` order
(`df[self.feature_names]`). -/
def create_feature_vector (profile : UserProfile) (feature_names : List String) :
    List (String × ℚ) :=
  let dict := buildFeatureDict profile feature_names (fun _ => none)
  feature_names.map fun f => (f, (dict f).getD 0)

/-! ### Prediction service (src/app/models/predictor.py, `predict`)

The trained classifiers, calibrated variants, fitted scalers and SHAP
explainers are opaque disk artifacts consumed via library calls; for a
fixed request they amount to, per nutrient key, a calibrated probability
(`calibrated_model.predict_proba(...)[0, 1]`), an uncalibrated probability
(`model.predict_proba(...)[0, 1]`) and a SHAP attribution row. -/

structure ModelEnv where
  calibProba : String → ℚ
  baseProba : String → ℚ
  shapVals : String → List ℚ

/-- Risk categorization of a calibrated probability (predictor.py lines
181-186). -/
def riskCategory (proba : ℚ) : RiskCategory :=
  if proba < 15/100 then RiskCategory.Low
  else if proba < 4/10 then RiskCategory.Moderate
  else RiskCategory.High

def nutrient_mapping : List (String × String) :=
  [("b12_deficient", "Vitamin B12"), ("iron_deficient", "Iron"),
   ("diabetes_risk", "Diabetes Risk")]

def anemiaNote : String :=
  "Based on hemoglobin levels (WHO criteria). Not iron deficiency specifically. Next step: Confirm with lab Hb test; if low, clinician should check ferritin."

def diabetesNote : String :=
  "Based on demographic indicators only. This prediction has very limited accuracy for diabetes screening. Next step: Consult healthcare provider for proper diabetes screening (HbA1c, fasting glucose)."

def b12Note : String :=
  "Based on demographic and health indicators. This prediction does not diagnose B12 deficiency. Next step: If high risk → request serum B12 (and MMA) from GP."

/-- One iteration of the prediction loop: build the `NutrientPrediction`
for one nutrient key (predictor.py lines 166-216). -/
def mkPrediction (env : ModelEnv) (nutrient_key nutrient_name : String) :
    NutrientPrediction :=
  let proba := env.calibProba nutrient_key
  let base_proba := env.baseProba nutrient_key
  let uncertainty := |proba - base_proba| + 5/100
  let conf_lower := max 0 (proba - uncertainty)
  let conf_upper := min 1 (proba + uncertainty)
  let display_name :=
    if nutrient_key = "iron_deficient" then "Anemia Risk"
    else if nutrient_key = "diabetes_risk" then "Diabetes Risk (Limited)"
    else nutrient_name
  let note :=
    if nutrient_key = "iron_deficient" then anemiaNote
    else if nutrient_key = "diabetes_risk" then diabetesNote
    else b12Note
  { nutrient := display_name
    risk_score := proba
    risk_category := riskCategory proba
    confidence := proba
    confidence_lower := conf_lower
    confidence_upper := conf_upper
    note := note }

/-- `_get_feature_description`. -/
def featureDescription (feature_code : String) : String :=
  (([("RIDAGEYR", "Age (years)"), ("RIAGENDR", "Gender"),
     ("RIDRETH3", "Race/Ethnicity"), ("BMXWT", "Weight (kg)"),
     ("BMXHT", "Height (cm)"), ("BMXBMI", "Body Mass Index"),
     ("SDDSRVYR", "Survey Year"), ("RIDSTATR", "Interview/Examination Status"),
     ("RIDRETH1", "Race/Ethnicity (Detailed)"), ("RIDEXMON", "Examination Month"),
     ("DMQMILIZ", "Military Service"), ("DMDBORN4", "Country of Birth"),
     ("DMDCITZN", "Citizenship Status"), ("DMDEDUC2", "Education Level"),
     ("DMDMARTL", "Marital Status"), ("SIALANG", "Interview Language"),
     ("SIAPROXY", "Proxy Used in Interview"), ("SIAINTRP", "Interpreter Used"),
     ("FIALANG", "Family Interview Language"), ("FIAPROXY", "Family Proxy Used")]
    : List (String × String)).lookup feature_code).getD feature_code

/-- `np.mean(all_shap_values, axis=0)`: element-wise mean of the three
nutrients' SHAP rows. -/
def avgShap (env : ModelEnv) : List ℚ :=
  (List.zipWith (fun a b => a + b) (env.shapVals "b12_deficient")
    (List.zipWith (fun a b => a + b) (env.shapVals "iron_deficient")
      (env.shapVals "diabetes_risk"))).map (fun s => s / 3)

/-- The per-feature contribution list (predictor.py lines 228-235), one
entry per schema feature, pairing the feature vector's value with the
averaged SHAP impact. -/
def topFeaturesAll (env : ModelEnv) (feature_names : List String)
    (profile : UserProfile) : List FeatureContribution :=
  List.zipWith
    (fun fv imp =>
      { feature := fv.1, feature_name := featureDescription fv.1,
        value := fv.2, impact := imp })
    (create_feature_vector profile feature_names) (avgShap env)

/-- The comparison used by `top_features.sort(key=lambda x: abs(x.impact),
reverse=True)`: descending absolute impact. -/
def absImpactGe (a b : FeatureContribution) : Bool :=
  decide (|b.impact| ≤ |a.impact|)

/-- The body of `predict` once the loaded check has passed: the three
`NutrientPrediction`s (in `nutrient_mapping` order) and the top-5
feature contributions by absolute impact. -/
def predictPure (env : ModelEnv) (feature_names : List String)
    (profile : UserProfile) :
    List NutrientPrediction × List FeatureContribution :=
  (nutrient_mapping.map (fun kv => mkPrediction env kv.1 kv.2),
   ((topFeaturesAll env feature_names profile).mergeSort absImpactGe).take 5)

/-- `NutrientPredictor.predict`: raises `RuntimeError("Models not loaded")`
when `models_loaded` is false, before any feature mapping or model call. -/
def predict (models_loaded : Bool) (env : ModelEnv)
    (feature_names : List String) (profile : UserProfile) :
    Except String (List NutrientPrediction × List FeatureContribution) :=
  if models_loaded = false then Except.error "Models not loaded"
  else Except.ok (predictPure env feature_names profile)

/-! ### Recommendation engine (src/app/models/recommendations.py) -/

def b12MedicalText : String :=
  "Discuss B12 testing and possible supplementation with a healthcare professional. High-dose B12 supplements (commonly 1000 μg) are available over-the-counter, but dosage should be clinically guided."

def b12DietaryText : String :=
  "Increase B12-rich foods such as fortified cereals, dairy products, eggs, fish, and lean meats."

def ironFoodsText : String :=
  "Increase intake of iron-rich foods such as lean red meat, poultry, fish, legumes, dark leafy greens, and fortified cereals."

def ironMedicalText : String :=
  "Consider discussing iron supplementation with a healthcare provider. Women often have higher iron requirements, but supplementation should only be started after clinical evaluation."

def ironVitCText : String :=
  "Enhance iron absorption by consuming vitamin C-rich foods (e.g., citrus fruits) together with iron-rich meals."

def vitdSunText : String :=
  "Get regular safe sunlight exposure when possible (10–30 minutes depending on skin type). Discuss vitamin D supplementation with a healthcare provider if sunlight exposure is limited."

def vitdFoodText : String :=
  "Include vitamin D-rich foods such as fatty fish (e.g., salmon, mackerel), fortified dairy or plant milks, and egg yolks."

/-- `_get_b12_recommendations`. -/
def get_b12_recommendations (pred : NutrientPrediction) (priority : Priority) :
    List Recommendation :=
  (if pred.risk_category = RiskCategory.High then
    [{ category := RecommendationCategory.Medical, priority := priority,
       recommendation := b12MedicalText,
       rationale := "High predicted risk of B12 deficiency (risk score: " ++
         formatFixed 2 pred.risk_score ++ ")" }]
  else []) ++
  [{ category := RecommendationCategory.Dietary, priority := priority,
     recommendation := b12DietaryText,
     rationale := "Vitamin B12 is primarily obtained from animal products and fortified foods." }]

/-- `_get_iron_recommendations`. -/
def get_iron_recommendations (pred : NutrientPrediction) (profile : UserProfile)
    (priority : Priority) : List Recommendation :=
  [{ category := RecommendationCategory.Dietary, priority := priority,
     recommendation := ironFoodsText,
     rationale := riskCategoryStr pred.risk_category ++
       " predicted risk of anemia/iron deficiency (risk score: " ++
       formatFixed 2 pred.risk_score ++ ")." }] ++
  (if profile.gender = "Female" then
    [{ category := RecommendationCategory.Medical, priority := priority,
       recommendation := ironMedicalText,
       rationale := "Additional iron needs may occur due to menstrual blood loss." }]
  else []) ++
  [{ category := RecommendationCategory.Dietary, priority := Priority.Medium,
     recommendation := ironVitCText,
     rationale := "Vitamin C improves non-heme iron absorption." }]

/-- `_get_vitd_recommendations`. -/
def get_vitd_recommendations (pred : NutrientPrediction) (priority : Priority) :
    List Recommendation :=
  [{ category := RecommendationCategory.Lifestyle, priority := priority,
     recommendation := vitdSunText,
     rationale := riskCategoryStr pred.risk_category ++
       " predicted risk of vitamin D deficiency (risk score: " ++
       formatFixed 2 pred.risk_score ++ ")." },
   { category := RecommendationCategory.Dietary, priority := priority,
     recommendation := vitdFoodText,
     rationale := "Few foods naturally contain vitamin D." }]

/-- `_get_lifestyle_recommendations`. -/
def get_lifestyle_recommendations (profile : UserProfile) : List Recommendation :=
  let bmi := profile.weight / ((profile.height / 100) ^ 2)
  (if bmi < 185/10 then
    [{ category := RecommendationCategory.Lifestyle, priority := Priority.Medium,
       recommendation := "Consider speaking with a registered dietitian to develop a healthy weight-gain plan.",
       rationale := "BMI of " ++ formatFixed 1 bmi ++ " is below the healthy range." }]
  else if bmi > 25 then
    [{ category := RecommendationCategory.Lifestyle, priority := Priority.Medium,
       recommendation := "Engage in regular physical activity and follow a balanced diet to support healthy weight management.",
       rationale := "BMI of " ++ formatFixed 1 bmi ++ " is " ++
         (if bmi < 30 then "slightly " else "") ++ "above the healthy range." }]
  else []) ++
  (if profile.age > 65 then
    [{ category := RecommendationCategory.Medical, priority := Priority.Medium,
       recommendation := "Older adults may benefit from routine screening for vitamin D, B12, and iron status.",
       rationale := "Nutrient absorption and dietary intake often change with age." }]
  else []) ++
  [{ category := RecommendationCategory.Lifestyle, priority := Priority.Low,
     recommendation := "Maintain a balanced diet with a variety of food groups.",
     rationale := "Dietary diversity supports adequate nutrient intake." }]

/-- The body of the per-prediction loop of `generate_recommendations`
(recommendations.py lines 19-28): nutrient-specific dispatch when the
risk category is High or Moderate. -/
def recsForPred (pred : NutrientPrediction) (profile : UserProfile) :
    List Recommendation :=
  if pred.risk_category = RiskCategory.High ∨
      pred.risk_category = RiskCategory.Moderate then
    let priority :=
      if pred.risk_category = RiskCategory.High then Priority.High
      else Priority.Medium
    if strContains pred.nutrient "B12" then
      get_b12_recommendations pred priority
    else if strContains pred.nutrient "Iron" || strContains pred.nutrient "Anemia" then
      get_iron_recommendations pred profile priority
    else if strContains pred.nutrient "Vitamin D" then
      get_vitd_recommendations pred priority
    else []
  else []

/-- `RecommendationEngine.generate_recommendations`: per-prediction
dispatch results in order, then the lifestyle recommendations. -/
def generate_recommendations (predictions : List NutrientPrediction)
    (profile : UserProfile) : List Recommendation :=
  (predictions.flatMap fun pred => recsForPred pred profile) ++
  get_lifestyle_recommendations profile

/-! ### Response assembly (src/app/api/predictions.py, `predict_deficiencies`) -/

/-- `overall_health_score = max(0, 1 - (sum(risk_scores) / len(risk_scores)))`. -/
def overall_health_score (risk_scores : List ℚ) : ℚ :=
  max 0 (1 - risk_scores.sum / (risk_scores.length : ℚ))

/-! ### Concrete instances used by witnesses and counterexamples -/

/-- The example profile from the schema documentation (user_profile.py,
`schema_extra`). -/
def exProfile : UserProfile :=
  { age := 35, gender := "Female", race := "Non-Hispanic White", weight := 65,
    height := 165, education := "College graduate or above",
    marital_status := "Married", country_of_birth := "US" }

/-- The same profile with a race whose NHANES code differs from the
`RIDRETH1` fallback code 3. -/
def exProfileMA : UserProfile :=
  { age := 35, gender := "Female", race := "Mexican American", weight := 65,
    height := 165, education := "College graduate or above",
    marital_status := "Married", country_of_birth := "US" }

/-- A concrete model environment: every nutrient gets calibrated and base
probability 1/2 and the SHAP row [1, -2]. -/
def constEnv : ModelEnv :=
  { calibProba := fun _ => 1/2, baseProba := fun _ => 1/2,
    shapVals := fun _ => [1, -2] }

/-! ### Theorems -/

/-- Claim C1: the risk category assigned by `predict` is Low exactly when
the calibrated probability is below 0.15, Moderate exactly on
[0.15, 0.4), and High exactly at or above 0.4; in particular 0.15 gives
Moderate and 0.4 gives High. -/
theorem risk_category_thresholds (p : ℚ) :
    (riskCategory p = RiskCategory.Low ↔ p < 15/100) ∧
    (riskCategory p = RiskCategory.Moderate ↔ 15/100 ≤ p ∧ p < 4/10) ∧
    (riskCategory p = RiskCategory.High ↔ 4/10 ≤ p) ∧
    riskCategory (15/100) = RiskCategory.Moderate ∧
    riskCategory (4/10) = RiskCategory.High := by
  have h15 : riskCategory (15/100 : ℚ) = RiskCategory.Moderate := by
    unfold riskCategory; norm_num
  have h4 : riskCategory (4/10 : ℚ) = RiskCategory.High := by
    unfold riskCategory; norm_num
  have hlow : riskCategory p = RiskCategory.Low ↔ p < 15/100 := by
    constructor
    · intro h
      by_contra hc
      unfold riskCategory at h
      rw [if_neg hc] at h
      split_ifs at h
    · intro h
      unfold riskCategory
      rw [if_pos h]
  have hmod : riskCategory p = RiskCategory.Moderate ↔ 15/100 ≤ p ∧ p < 4/10 := by
    constructor
    · intro h
      unfold riskCategory at h
      split_ifs at h with h1 h2
      · exact ⟨le_of_not_lt h1, h2⟩
    · rintro ⟨ha, hb⟩
      unfold riskCategory
      rw [if_neg (not_lt.mpr ha), if_pos hb]
  have hhigh : riskCategory p = RiskCategory.High ↔ 4/10 ≤ p := by
    constructor
    · intro h
      unfold riskCategory at h
      split_ifs at h with h1 h2
      · exact le_of_not_lt h2
    · intro h
      unfold riskCategory
      rw [if_neg (not_lt.mpr (by linarith)), if_neg (not_lt.mpr h)]
  exact ⟨hlow, hmod, hhigh, h15, h4⟩

/-- Claim C4: the overall health score is `max(0, 1 - mean(risk_scores))`,
lies in [0, 1] for risk scores in [0, 1], and risk scores 0.1, 0.2, 0.3
give 0.8. -/
theorem overall_health_score_spec (scores : List ℚ) (hne : scores ≠ [])
    (hb : ∀ s ∈ scores, 0 ≤ s ∧ s ≤ 1) :
    overall_health_score scores =
      max 0 (1 - scores.sum / (scores.length : ℚ)) ∧
    0 ≤ overall_health_score scores ∧ overall_health_score scores ≤ 1 ∧
    overall_health_score [1/10, 2/10, 3/10] = 8/10 := by
  have hex : overall_health_score [1/10, 2/10, 3/10] = 8/10 := by
    have h : (1 : ℚ) - ([1/10, 2/10, 3/10] : List ℚ).sum /
        ((([1/10, 2/10, 3/10] : List ℚ).length : ℕ) : ℚ) = 8/10 := by
      norm_num [List.sum_cons, List.sum_nil]
    unfold overall_health_score
    rw [h, max_eq_right (by norm_num : (0:ℚ) ≤ 8/10)]
  refine ⟨rfl, le_max_left _ _, ?_, hex⟩
  have hsum : 0 ≤ scores.sum := List.sum_nonneg (fun x hx => (hb x hx).1)
  have hlen : (0:ℚ) < (scores.length : ℚ) := by
    exact_mod_cast List.length_pos.mpr hne
  have hdiv : 0 ≤ scores.sum / (scores.length : ℚ) := div_nonneg hsum hlen.le
  unfold overall_health_score
  exact max_le (by norm_num) (by linarith)

theorem overall_health_score_witness :
    overall_health_score [1/10, 2/10, 3/10] =
      max 0 (1 - ([1/10, 2/10, 3/10] : List ℚ).sum /
        ((([1/10, 2/10, 3/10] : List ℚ).length : ℚ))) ∧
    0 ≤ overall_health_score [1/10, 2/10, 3/10] ∧
    overall_health_score [1/10, 2/10, 3/10] ≤ 1 ∧
    overall_health_score [1/10, 2/10, 3/10] = 8/10 :=
  overall_health_score_spec [1/10, 2/10, 3/10] (by simp)
    (by intro s hs; fin_cases hs <;> norm_num)

/-- Claim C2 counterexample: with race "Mexican American" (NHANES code 1),
permuting the feature schema ["RIDRETH3", "RIDRETH1"] to
["RIDRETH1", "RIDRETH3"] changes the RIDRETH1 column from 1 (copied from
the already-computed RIDRETH3 entry) to 3 (the `.get` fallback), so
`create_feature_vector` is not order-independent. -/
theorem create_feature_vector_order_dependent :
    List.Perm ["RIDRETH1", "RIDRETH3"] ["RIDRETH3", "RIDRETH1"] ∧
    (create_feature_vector exProfileMA ["RIDRETH3", "RIDRETH1"]).lookup "RIDRETH1" =
      some 1 ∧
    (create_feature_vector exProfileMA ["RIDRETH1", "RIDRETH3"]).lookup "RIDRETH1" =
      some 3 := by
  decide

/-- Helper: every `mapFeature` branch except RIDRETH1 reads only the
profile, not the dict of already-computed features. -/
lemma mapFeature_dict_irrel (profile : UserProfile) (d d' : String → Option ℚ)
    (f : String) (hf : f ≠ "RIDRETH1") :
    mapFeature profile d f = mapFeature profile d' f := by
  unfold mapFeature
  refine if_congr Iff.rfl rfl ?_
  refine if_congr Iff.rfl rfl ?_
  refine if_congr Iff.rfl rfl ?_
  refine if_congr Iff.rfl rfl ?_
  refine if_congr Iff.rfl rfl ?_
  refine if_congr Iff.rfl rfl ?_
  refine if_congr Iff.rfl rfl ?_
  refine if_congr Iff.rfl rfl ?_
  refine if_congr Iff.rfl rfl ?_
  refine if_congr Iff.rfl rfl ?_
  refine if_congr Iff.rfl rfl ?_
  rw [if_neg hf, if_neg hf]

/-- The value a feature other than RIDRETH1 always receives. -/
def pureFeatureValue (profile : UserProfile) (f : String) : ℚ :=
  mapFeature profile (fun _ => none) f

lemma buildFeatureDict_not_mem (profile : UserProfile) (names : List String)
    (d : String → Option ℚ) (f : String) (hf : f ∉ names) :
    buildFeatureDict profile names d f = d f := by
  induction names generalizing d with
  | nil => rfl
  | cons a rest ih =>
      have hfa : f ≠ a := fun h => hf (h ▸ List.mem_cons_self a rest)
      have hfr : f ∉ rest := fun h => hf (List.mem_cons_of_mem _ h)
      rw [buildFeatureDict, ih _ hfr]
      simp [hfa]

lemma buildFeatureDict_mem (profile : UserProfile) (names : List String)
    (d : String → Option ℚ) (f : String) (hne : f ≠ "RIDRETH1")
    (hmem : f ∈ names) :
    buildFeatureDict profile names d f = some (pureFeatureValue profile f) := by
  induction names generalizing d with
  | nil => cases hmem
  | cons a rest ih =>
      by_cases hr : f ∈ rest
      · rw [buildFeatureDict]
        exact ih _ hr
      · have hfa : f = a := by
          rcases List.mem_cons.mp hmem with h | h
          · exact h
          · exact absurd h hr
        subst hfa
        rw [buildFeatureDict, buildFeatureDict_not_mem profile rest _ f hr]
        simp [pureFeatureValue, mapFeature_dict_irrel profile d (fun _ => none) f hne]

lemma lookup_map_pair (g : String → ℚ) (names : List String) (f : String) :
    (names.map fun x => (x, g x)).lookup f =
      if f ∈ names then some (g f) else none := by
  induction names with
  | nil => rfl
  | cons a rest ih =>
      by_cases hfa : f = a
      · subst hfa
        simp [List.lookup]
      · simp [List.lookup, beq_eq_false_iff_ne.mpr hfa, ih, List.mem_cons, hfa]

/-- Claim C2 (amended): every column other than RIDRETH1 of
`create_feature_vector` is independent of the order of the loaded
feature-name list (each such field is computed standalone); RIDRETH1's
value depends on whether RIDRETH3 was computed in an earlier iteration. -/
theorem create_feature_vector_order_independent_except_rideth1
    (profile : UserProfile) (names₁ names₂ : List String) (f : String)
    (hf : f ≠ "RIDRETH1") (h1 : f ∈ names₁) (h2 : f ∈ names₂) :
    (create_feature_vector profile names₁).lookup f =
      (create_feature_vector profile names₂).lookup f := by
  unfold create_feature_vector
  rw [lookup_map_pair, lookup_map_pair, if_pos h1, if_pos h2,
    buildFeatureDict_mem profile names₁ _ f hf h1,
    buildFeatureDict_mem profile names₂ _ f hf h2]

theorem create_feature_vector_order_independent_witness :
    (create_feature_vector exProfileMA ["RIDAGEYR"]).lookup "RIDAGEYR" =
      (create_feature_vector exProfileMA ["BMXWT", "RIDAGEYR"]).lookup "RIDAGEYR" :=
  create_feature_vector_order_independent_except_rideth1 exProfileMA
    ["RIDAGEYR"] ["BMXWT", "RIDAGEYR"] "RIDAGEYR" (by decide) (by decide) (by decide)

/-- Helper: arithmetic facts about the heuristic confidence interval
around a probability `p` with uncalibrated counterpart `b`. -/
lemma conf_bounds (p b : ℚ) (hp0 : 0 ≤ p) (hp1 : p ≤ 1) :
    0 ≤ max 0 (p - (|p - b| + 5/100)) ∧
    max 0 (p - (|p - b| + 5/100)) ≤ p ∧
    p ≤ min 1 (p + (|p - b| + 5/100)) ∧
    min 1 (p + (|p - b| + 5/100)) ≤ 1 ∧
    max 0 (p - (|p - b| + 5/100)) ≤ 1 ∧
    0 ≤ min 1 (p + (|p - b| + 5/100)) := by
  have habs : 0 ≤ |p - b| := abs_nonneg _
  refine ⟨le_max_left _ _, max_le hp0 (by linarith), le_min hp1 (by linarith),
    min_le_left _ _, max_le (by norm_num) (by linarith),
    le_min (by norm_num) (by linarith)⟩

/-- Claim C3: every prediction returned by `predict` has
`confidence_lower = max(0, p - u)` and `confidence_upper = min(1, p + u)`
with `u = |p - b| + 0.05` for its nutrient's calibrated probability `p`
and uncalibrated probability `b`, and consequently
`confidence_lower ≤ risk_score ≤ confidence_upper` with both bounds in
[0, 1], whenever the model probabilities lie in [0, 1]. -/
theorem confidence_interval_bounds (env : ModelEnv) (names : List String)
    (profile : UserProfile) (pred : NutrientPrediction)
    (hmem : pred ∈ (predictPure env names profile).1)
    (hc : ∀ k, 0 ≤ env.calibProba k ∧ env.calibProba k ≤ 1) :
    (∃ k ∈ (["b12_deficient", "iron_deficient", "diabetes_risk"] : List String),
      pred.risk_score = env.calibProba k ∧
      pred.confidence_lower =
        max 0 (env.calibProba k - (|env.calibProba k - env.baseProba k| + 5/100)) ∧
      pred.confidence_upper =
        min 1 (env.calibProba k + (|env.calibProba k - env.baseProba k| + 5/100))) ∧
    0 ≤ pred.confidence_lower ∧
    pred.confidence_lower ≤ pred.risk_score ∧
    pred.risk_score ≤ pred.confidence_upper ∧
    pred.confidence_upper ≤ 1 ∧
    pred.confidence_lower ≤ 1 ∧ 0 ≤ pred.confidence_upper := by
  have hcases : pred = mkPrediction env "b12_deficient" "Vitamin B12" ∨
      pred = mkPrediction env "iron_deficient" "Iron" ∨
      pred = mkPrediction env "diabetes_risk" "Diabetes Risk" := by
    simpa [predictPure, nutrient_mapping] using hmem
  rcases hcases with rfl | rfl | rfl <;>
    · refine ⟨⟨_, by simp, rfl, rfl, rfl⟩, ?_⟩
      simpa [mkPrediction] using
        conf_bounds (env.calibProba _) (env.baseProba _) (hc _).1 (hc _).2

theorem confidence_interval_bounds_witness :
    (∃ k ∈ (["b12_deficient", "iron_deficient", "diabetes_risk"] : List String),
      (mkPrediction constEnv "b12_deficient" "Vitamin B12").risk_score =
        constEnv.calibProba k ∧
      (mkPrediction constEnv "b12_deficient" "Vitamin B12").confidence_lower =
        max 0 (constEnv.calibProba k -
          (|constEnv.calibProba k - constEnv.baseProba k| + 5/100)) ∧
      (mkPrediction constEnv "b12_deficient" "Vitamin B12").confidence_upper =
        min 1 (constEnv.calibProba k +
          (|constEnv.calibProba k - constEnv.baseProba k| + 5/100))) ∧
    0 ≤ (mkPrediction constEnv "b12_deficient" "Vitamin B12").confidence_lower ∧
    (mkPrediction constEnv "b12_deficient" "Vitamin B12").confidence_lower ≤
      (mkPrediction constEnv "b12_deficient" "Vitamin B12").risk_score ∧
    (mkPrediction constEnv "b12_deficient" "Vitamin B12").risk_score ≤
      (mkPrediction constEnv "b12_deficient" "Vitamin B12").confidence_upper ∧
    (mkPrediction constEnv "b12_deficient" "Vitamin B12").confidence_upper ≤ 1 ∧
    (mkPrediction constEnv "b12_deficient" "Vitamin B12").confidence_lower ≤ 1 ∧
    0 ≤ (mkPrediction constEnv "b12_deficient" "Vitamin B12").confidence_upper :=
  confidence_interval_bounds constEnv [] exProfile
    (mkPrediction constEnv "b12_deficient" "Vitamin B12")
    (by simp [predictPure, nutrient_mapping])
    (fun k => ⟨by norm_num [constEnv], by norm_num [constEnv]⟩)

lemma absImpactGe_trans (a b c : FeatureContribution)
    (hab : absImpactGe a b = true) (hbc : absImpactGe b c = true) :
    absImpactGe a c = true := by
  simp only [absImpactGe, decide_eq_true_eq] at *
  exact le_trans hbc hab

lemma absImpactGe_total (a b : FeatureContribution) :
    (absImpactGe a b || absImpactGe b a) = true := by
  simp only [absImpactGe, Bool.or_eq_true, decide_eq_true_eq]
  exact le_total _ _

/-- Claim C5: the top_features list returned by `predict` has length
exactly min(5, number of schema features) and is sorted by descending
absolute impact, whenever each SHAP row has one entry per schema
feature. -/
theorem top_features_length_sorted (env : ModelEnv) (names : List String)
    (profile : UserProfile)
    (h1 : (env.shapVals "b12_deficient").length = names.length)
    (h2 : (env.shapVals "iron_deficient").length = names.length)
    (h3 : (env.shapVals "diabetes_risk").length = names.length) :
    (predictPure env names profile).2.length = min 5 names.length ∧
    List.Sorted (fun a b : FeatureContribution => |b.impact| ≤ |a.impact|)
      (predictPure env names profile).2 := by
  constructor
  · have hlen : (topFeaturesAll env names profile).length = names.length := by
      simp only [topFeaturesAll, avgShap, create_feature_vector,
        List.length_zipWith, List.length_map, h1, h2, h3]
      omega
    show (((topFeaturesAll env names profile).mergeSort absImpactGe).take 5).length = _
    rw [List.length_take, List.length_mergeSort, hlen]
  · have hs := List.sorted_mergeSort absImpactGe_trans absImpactGe_total
      (topFeaturesAll env names profile)
    have hs' : List.Pairwise (fun a b : FeatureContribution => |b.impact| ≤ |a.impact|)
        ((topFeaturesAll env names profile).mergeSort absImpactGe) :=
      hs.imp (by intro a b h; simpa [absImpactGe] using h)
    exact List.Pairwise.sublist (List.take_sublist 5 _) hs'

theorem top_features_length_sorted_witness :
    (predictPure constEnv ["RIDAGEYR", "BMXWT"] exProfile).2.length =
      min 5 (["RIDAGEYR", "BMXWT"] : List String).length ∧
    List.Sorted (fun a b : FeatureContribution => |b.impact| ≤ |a.impact|)
      (predictPure constEnv ["RIDAGEYR", "BMXWT"] exProfile).2 :=
  top_features_length_sorted constEnv ["RIDAGEYR", "BMXWT"] exProfile rfl rfl rfl

/-- Claim C7: `generate_recommendations` is deterministic: identical
(predictions, profile) inputs give identical, identically-ordered
recommendation lists. -/
theorem generate_recommendations_deterministic
    (preds₁ preds₂ : List NutrientPrediction) (profile₁ profile₂ : UserProfile)
    (hp : preds₁ = preds₂) (hq : profile₁ = profile₂) :
    generate_recommendations preds₁ profile₁ =
      generate_recommendations preds₂ profile₂ := by
  subst hp; subst hq; rfl

theorem generate_recommendations_deterministic_witness :
    generate_recommendations [] exProfile = generate_recommendations [] exProfile :=
  generate_recommendations_deterministic [] [] exProfile exProfile rfl rfl

/-- Claim C9: calling `predict` while `models_loaded` is false yields the
error unconditionally, independent of the profile, the feature schema and
the model environment. -/
theorem predict_unloaded_errors (loaded : Bool) (env : ModelEnv)
    (feature_names : List String) (profile : UserProfile)
    (h : loaded = false) :
    predict loaded env feature_names profile = Except.error "Models not loaded" ∧
    ∀ (env₂ : ModelEnv) (names₂ : List String) (profile₂ : UserProfile),
      predict loaded env₂ names₂ profile₂ =
        predict loaded env feature_names profile := by
  subst h
  exact ⟨rfl, fun _ _ _ => rfl⟩

theorem predict_unloaded_errors_witness :
    predict false constEnv [] exProfile = Except.error "Models not loaded" ∧
    ∀ (env₂ : ModelEnv) (names₂ : List String) (profile₂ : UserProfile),
      predict false env₂ names₂ profile₂ = predict false constEnv [] exProfile :=
  predict_unloaded_errors false constEnv [] exProfile rfl

/-- A prediction whose nutrient name contains both "Iron" and "B12". -/
def predIronB12 : NutrientPrediction :=
  { nutrient := "Iron B12", risk_score := 1/2, risk_category := RiskCategory.High,
    confidence := 1/2, confidence_lower := 2/5, confidence_upper := 3/5, note := "" }

/-- A High-risk anemia prediction as produced by `predict`. -/
def predAnemiaHigh : NutrientPrediction :=
  { nutrient := "Anemia Risk", risk_score := 1/2, risk_category := RiskCategory.High,
    confidence := 1/2, confidence_lower := 2/5, confidence_upper := 3/5, note := "" }

/-- Claim C6 counterexample: a prediction whose nutrient name contains
"Iron" (and also "B12"), with risk_category High and a Female profile, is
dispatched to the B12 branch by the `elif` chain, so no iron-rich-foods
Dietary recommendation is generated — the claim fails for such a
predictions list. -/
theorem iron_name_with_b12_skips_iron_branch :
    strContains predIronB12.nutrient "Iron" = true ∧
    predIronB12.risk_category = RiskCategory.High ∧
    exProfile.gender = "Female" ∧
    ∀ r ∈ generate_recommendations [predIronB12] exProfile,
      r.recommendation ≠ ironFoodsText := by
  refine ⟨by decide, rfl, rfl, ?_⟩
  have hb : strContains "Iron B12" "B12" = true := by decide
  have hrec : recsForPred predIronB12 exProfile =
      get_b12_recommendations predIronB12 Priority.High := by
    unfold recsForPred
    simp [predIronB12, hb]
  have hlife : get_lifestyle_recommendations exProfile =
      [{ category := RecommendationCategory.Lifestyle, priority := Priority.Low,
         recommendation := "Maintain a balanced diet with a variety of food groups.",
         rationale := "Dietary diversity supports adequate nutrient intake." }] := by
    unfold get_lifestyle_recommendations
    norm_num [exProfile]
  intro r hr
  unfold generate_recommendations at hr
  rw [hlife] at hr
  simp only [List.flatMap_cons, List.flatMap_nil, List.append_nil, hrec] at hr
  unfold get_b12_recommendations at hr
  simp [predIronB12] at hr
  rcases hr with rfl | rfl | rfl <;> decide

/-- Claim C6 (amended): for every predictions list containing an entry
whose nutrient name contains "Iron" or "Anemia" BUT NOT "B12" (the
dispatch is an elif chain testing "B12" first), with risk_category High,
and a Female profile, `generate_recommendations` returns an iron-rich-
foods Dietary recommendation, a Medical iron-supplementation
recommendation, and a Medium-priority vitamin-C-pairing Dietary
recommendation. -/
theorem iron_recommendations_present (preds : List NutrientPrediction)
    (profile : UserProfile) (pred : NutrientPrediction)
    (hmem : pred ∈ preds)
    (hb12 : strContains pred.nutrient "B12" = false)
    (hiron : strContains pred.nutrient "Iron" = true ∨
      strContains pred.nutrient "Anemia" = true)
    (hcat : pred.risk_category = RiskCategory.High)
    (hfem : profile.gender = "Female") :
    (∃ r ∈ generate_recommendations preds profile,
      r.category = RecommendationCategory.Dietary ∧
      r.recommendation = ironFoodsText) ∧
    (∃ r ∈ generate_recommendations preds profile,
      r.category = RecommendationCategory.Medical ∧
      r.recommendation = ironMedicalText) ∧
    (∃ r ∈ generate_recommendations preds profile,
      r.category = RecommendationCategory.Dietary ∧
      r.priority = Priority.Medium ∧
      r.recommendation = ironVitCText) := by
  have hrec : recsForPred pred profile =
      get_iron_recommendations pred profile Priority.High := by
    unfold recsForPred
    rw [hcat]
    rcases hiron with h | h <;> simp [hb12, h]
  have hsub : ∀ r ∈ get_iron_recommendations pred profile Priority.High,
      r ∈ generate_recommendations preds profile := by
    intro r hr
    unfold generate_recommendations
    exact List.mem_append_left _ (List.mem_flatMap.mpr ⟨pred, hmem, hrec ▸ hr⟩)
  have hlist : get_iron_recommendations pred profile Priority.High =
      [{ category := RecommendationCategory.Dietary, priority := Priority.High,
         recommendation := ironFoodsText,
         rationale := riskCategoryStr pred.risk_category ++
           " predicted risk of anemia/iron deficiency (risk score: " ++
           formatFixed 2 pred.risk_score ++ ")." },
       { category := RecommendationCategory.Medical, priority := Priority.High,
         recommendation := ironMedicalText,
         rationale := "Additional iron needs may occur due to menstrual blood loss." },
       { category := RecommendationCategory.Dietary, priority := Priority.Medium,
         recommendation := ironVitCText,
         rationale := "Vitamin C improves non-heme iron absorption." }] := by
    unfold get_iron_recommendations
    rw [if_pos hfem]
    simp
  have hm1 : ({ category := RecommendationCategory.Dietary, priority := Priority.High, recommendation := ironFoodsText, rationale := riskCategoryStr pred.risk_category ++ " predicted risk of anemia/iron deficiency (risk score: " ++ formatFixed 2 pred.risk_score ++ ")." } : Recommendation) ∈ get_iron_recommendations pred profile Priority.High := by
    rw [hlist]
    exact List.mem_cons_self _ _
  have hm2 : ({ category := RecommendationCategory.Medical, priority := Priority.High, recommendation := ironMedicalText, rationale := "Additional iron needs may occur due to menstrual blood loss." } : Recommendation) ∈ get_iron_recommendations pred profile Priority.High := by
    rw [hlist]
    exact List.mem_cons_of_mem _ (List.mem_cons_self _ _)
  have hm3 : ({ category := RecommendationCategory.Dietary, priority := Priority.Medium, recommendation := ironVitCText, rationale := "Vitamin C improves non-heme iron absorption." } : Recommendation) ∈ get_iron_recommendations pred profile Priority.High := by
    rw [hlist]
    exact List.mem_cons_of_mem _ (List.mem_cons_of_mem _ (List.mem_cons_self _ _))
  exact ⟨⟨_, hsub _ hm1, rfl, rfl⟩, ⟨_, hsub _ hm2, rfl, rfl⟩,
    ⟨_, hsub _ hm3, rfl, rfl, rfl⟩⟩

theorem iron_recommendations_present_witness :
    (∃ r ∈ generate_recommendations [predAnemiaHigh] exProfile,
      r.category = RecommendationCategory.Dietary ∧
      r.recommendation = ironFoodsText) ∧
    (∃ r ∈ generate_recommendations [predAnemiaHigh] exProfile,
      r.category = RecommendationCategory.Medical ∧
      r.recommendation = ironMedicalText) ∧
    (∃ r ∈ generate_recommendations [predAnemiaHigh] exProfile,
      r.category = RecommendationCategory.Dietary ∧
      r.priority = Priority.Medium ∧
      r.recommendation = ironVitCText) :=
  iron_recommendations_present [predAnemiaHigh] exProfile predAnemiaHigh
    (List.mem_singleton.mpr rfl) (by decide) (Or.inr (by decide)) rfl rfl

lemma b12_rec_texts (pred : NutrientPrediction) (p : Priority) :
    ∀ r ∈ get_b12_recommendations pred p,
      r.recommendation ≠ vitdSunText ∧ r.recommendation ≠ vitdFoodText := by
  intro r hr
  unfold get_b12_recommendations at hr
  split_ifs at hr <;> simp at hr <;>
    (first
      | (rcases hr with rfl | rfl)
      | (rcases hr with rfl)) <;>
    constructor <;>
    simp [b12MedicalText, b12DietaryText, vitdSunText, vitdFoodText]

lemma iron_rec_texts (pred : NutrientPrediction) (profile : UserProfile)
    (p : Priority) :
    ∀ r ∈ get_iron_recommendations pred profile p,
      r.recommendation ≠ vitdSunText ∧ r.recommendation ≠ vitdFoodText := by
  intro r hr
  unfold get_iron_recommendations at hr
  split_ifs at hr <;> simp at hr <;>
    (first
      | (rcases hr with rfl | rfl | rfl)
      | (rcases hr with rfl | rfl)
      | (rcases hr with rfl)) <;>
    constructor <;>
    simp [ironFoodsText, ironMedicalText, ironVitCText, vitdSunText, vitdFoodText]

lemma lifestyle_rec_texts (profile : UserProfile) :
    ∀ r ∈ get_lifestyle_recommendations profile,
      r.recommendation ≠ vitdSunText ∧ r.recommendation ≠ vitdFoodText := by
  intro r hr
  unfold get_lifestyle_recommendations at hr
  simp only [List.mem_append] at hr
  rcases hr with (h | h) | h
  · split_ifs at h <;> simp at h <;> subst h <;> constructor <;>
      simp [vitdSunText, vitdFoodText]
  · split_ifs at h <;> simp at h <;> subst h <;> constructor <;>
      simp [vitdSunText, vitdFoodText]
  · simp at h
    subst h
    constructor <;> simp [vitdSunText, vitdFoodText]

/-- Helper: a prediction whose nutrient name does not contain "Vitamin D"
never produces the vitamin D branch's recommendations. -/
lemma recsForPred_no_vitd (pred : NutrientPrediction) (profile : UserProfile)
    (hv : strContains pred.nutrient "Vitamin D" = false) :
    ∀ r ∈ recsForPred pred profile,
      r.recommendation ≠ vitdSunText ∧ r.recommendation ≠ vitdFoodText := by
  intro r hr
  simp only [recsForPred] at hr
  split_ifs at hr <;>
    first
      | exact absurd hr (List.not_mem_nil r)
      | exact b12_rec_texts pred _ r hr
      | exact iron_rec_texts pred profile _ r hr
      | exact absurd ‹strContains pred.nutrient "Vitamin D" = true› (by simp [hv])

/-- Claim C8: `predict` only produces the nutrient names "Vitamin B12",
"Anemia Risk" and "Diabetes Risk (Limited)", none of which contains
"Vitamin D", so the Vitamin D recommendation branch never fires on the
output of `predict`: no generated recommendation carries either vitamin D
recommendation text. -/
theorem no_vitamin_d_predictions (env : ModelEnv) (names : List String)
    (profile profile₂ : UserProfile) :
    (∀ pred ∈ (predictPure env names profile).1,
      (pred.nutrient = "Vitamin B12" ∨ pred.nutrient = "Anemia Risk" ∨
        pred.nutrient = "Diabetes Risk (Limited)") ∧
      strContains pred.nutrient "Vitamin D" = false) ∧
    ∀ r ∈ generate_recommendations (predictPure env names profile).1 profile₂,
      r.recommendation ≠ vitdSunText ∧ r.recommendation ≠ vitdFoodText := by
  have hnames : ∀ pred ∈ (predictPure env names profile).1,
      pred.nutrient = "Vitamin B12" ∨ pred.nutrient = "Anemia Risk" ∨
        pred.nutrient = "Diabetes Risk (Limited)" := by
    intro pred hmem
    have h3 : pred = mkPrediction env "b12_deficient" "Vitamin B12" ∨
        pred = mkPrediction env "iron_deficient" "Iron" ∨
        pred = mkPrediction env "diabetes_risk" "Diabetes Risk" := by
      simpa [predictPure, nutrient_mapping] using hmem
    rcases h3 with rfl | rfl | rfl
    · exact Or.inl rfl
    · exact Or.inr (Or.inl rfl)
    · exact Or.inr (Or.inr rfl)
  have hv : ∀ pred ∈ (predictPure env names profile).1,
      strContains pred.nutrient "Vitamin D" = false := by
    intro pred hmem
    rcases hnames pred hmem with h | h | h <;> rw [h] <;> decide
  refine ⟨fun pred hmem => ⟨hnames pred hmem, hv pred hmem⟩, ?_⟩
  intro r hr
  unfold generate_recommendations at hr
  rcases List.mem_append.mp hr with h | h
  · obtain ⟨pred, hpred, hr2⟩ := List.mem_flatMap.mp h
    exact recsForPred_no_vitd pred profile₂ (hv pred hpred) r hr2
  · exact lifestyle_rec_texts profile₂ r h

/-- Helper: a prediction named "Diabetes Risk (Limited)" matches none of
the dispatch substring tests, so its nutrient-specific recommendation
list is empty whatever the risk category. -/
lemma recsForPred_diabetes (profile : UserProfile) (pred : NutrientPrediction)
    (hname : pred.nutrient = "Diabetes Risk (Limited)") :
    recsForPred pred profile = [] := by
  have hb : strContains "Diabetes Risk (Limited)" "B12" = false := by decide
  have hi : strContains "Diabetes Risk (Limited)" "Iron" = false := by decide
  have ha : strContains "Diabetes Risk (Limited)" "Anemia" = false := by decide
  have hv : strContains "Diabetes Risk (Limited)" "Vitamin D" = false := by decide
  unfold recsForPred
  rw [hname, hb, hi, ha, hv]
  simp

/-- Claim C10: a Moderate or High "Diabetes Risk (Limited)" prediction
contributes no nutrient-specific recommendation, and among the names
`predict` produces only "Vitamin B12" and "Anemia Risk" predictions can
contribute nutrient-specific recommendations. -/
theorem diabetes_no_specific_recommendations (profile : UserProfile)
    (pred : NutrientPrediction)
    (hname : pred.nutrient = "Diabetes Risk (Limited)")
    (hcat : pred.risk_category = RiskCategory.Moderate ∨
      pred.risk_category = RiskCategory.High) :
    recsForPred pred profile = [] ∧
    ∀ (pred₂ : NutrientPrediction),
      (pred₂.nutrient = "Vitamin B12" ∨ pred₂.nutrient = "Anemia Risk" ∨
        pred₂.nutrient = "Diabetes Risk (Limited)") →
      recsForPred pred₂ profile ≠ [] →
      pred₂.nutrient = "Vitamin B12" ∨ pred₂.nutrient = "Anemia Risk" := by
  refine ⟨recsForPred_diabetes profile pred hname, ?_⟩
  intro pred₂ hn hne
  rcases hn with h | h | h
  · exact Or.inl h
  · exact Or.inr h
  · exact absurd (recsForPred_diabetes profile pred₂ h) hne

theorem diabetes_no_specific_recommendations_witness :
    recsForPred
      { nutrient := "Diabetes Risk (Limited)", risk_score := 1/2,
        risk_category := RiskCategory.High, confidence := 1/2,
        confidence_lower := 2/5, confidence_upper := 3/5, note := "" }
      exProfile = [] ∧
    ∀ (pred₂ : NutrientPrediction),
      (pred₂.nutrient = "Vitamin B12" ∨ pred₂.nutrient = "Anemia Risk" ∨
        pred₂.nutrient = "Diabetes Risk (Limited)") →
      recsForPred pred₂ exProfile ≠ [] →
      pred₂.nutrient = "Vitamin B12" ∨ pred₂.nutrient = "Anemia Risk" :=
  diabetes_no_specific_recommendations exProfile
    { nutrient := "Diabetes Risk (Limited)", risk_score := 1/2,
      risk_category := RiskCategory.High, confidence := 1/2,
      confidence_lower := 2/5, confidence_upper := 3/5, note := "" }
    rfl (Or.inr rfl)
